import Mathlib

/-!
Shallow embedding of the batch/job orchestration engine of the
podcast-search backend (`src/backend/app`), covering:

* the `Batch` and `Job` state machines of `app/routers/batches.py` and
  `app/routers/jobs.py`;
* the counter-update loop of `app/workers/batch_processor.py`;
* the completion reconciliation task of `app/tasks/transcription.py`;
* the pipeline failure handler of `app/workers/pipeline.py`;
* the circuit breaker of `app/utils/retry.py`;
* the `progress_percent` property of `app/models/batch.py`.

Database rows become Lean structures; each HTTP handler or task becomes a
pure function from the row(s) it reads to either an error (the raised
`HTTPException`, in which case nothing was committed) or the new row
values it commits.  Wall-clock instants (`datetime.utcnow()`,
`time.time()`) are passed in as explicit `Int` parameters.
-/

namespace PodcastSearch

/-- Batch statuses (`app/models/batch.py` line 32):
pending, running, paused, completed, cancelled, failed. -/
inductive BatchStatus
  | pending
  | running
  | paused
  | completed
  | cancelled
  | failed
  deriving DecidableEq, Repr

/-- Job statuses (`app/models/job.py` line 22): pending, downloading,
uploading, transcribing, labeling, chunking, embedding, done, failed,
cancelled; `app/routers/jobs.py` additionally uses `paused` and the
Celery path (`app/tasks/transcription.py` line 66) uses `processing`. -/
inductive JobStatus
  | pending
  | downloading
  | uploading
  | transcribing
  | labeling
  | chunking
  | embedding
  | done
  | failed
  | cancelled
  | paused
  | processing
  deriving DecidableEq, Repr

/-- The mutable columns of a `batches` row that the orchestration code
reads or writes (`app/models/batch.py`). -/
structure Batch where
  status : BatchStatus
  total_episodes : Nat
  completed_episodes : Nat
  failed_episodes : Nat
  started_at : Option Int
  paused_at : Option Int
  completed_at : Option Int
  deriving DecidableEq, Repr

/-- The mutable columns of a `jobs` row that the orchestration code
reads or writes (`app/models/job.py`). -/
structure Job where
  status : JobStatus
  progress : Nat
  current_step : Option String
  error_message : Option String
  error_code : Option String
  retry_count : Nat
  cost_cents : Option Int
  started_at : Option Int
  completed_at : Option Int
  deriving DecidableEq, Repr

/-- An `HTTPException(status_code=..., detail=...)`. -/
structure ApiError where
  status_code : Nat
  detail : String
  deriving DecidableEq, Repr

/-- The string rendering of a batch status, as interpolated into error
details by `f"... {batch.status}"`. -/
def batchStatusStr : BatchStatus → String
  | .pending => "pending"
  | .running => "running"
  | .paused => "paused"
  | .completed => "completed"
  | .cancelled => "cancelled"
  | .failed => "failed"

/-- The database state a handler leaves behind: on `.ok` the new state is
committed, on `.error` the handler raised `HTTPException` before any
mutation, so the old state `s` persists. -/
def committedState {α : Type} (s : α) (r : Except ApiError α) : α :=
  match r with
  | .ok s' => s'
  | .error _ => s

/-- `start_batch` (`app/routers/batches.py` lines 328-361): legal only
from `pending`/`paused`; sets status `running`, assigns
`started_at = datetime.utcnow()` unconditionally (line 352) and clears
`paused_at`. -/
def start_batch (b : Batch) (now : Int) : Except ApiError Batch :=
  if b.status = .pending ∨ b.status = .paused then
    .ok { b with status := .running, started_at := some now, paused_at := none }
  else
    .error ⟨400, "Cannot start batch with status: " ++ batchStatusStr b.status⟩

/-- `pause_batch` (`app/routers/batches.py` lines 364-389): legal only
from `running`; sets status `paused` and `paused_at = now`. -/
def pause_batch (b : Batch) (now : Int) : Except ApiError Batch :=
  if b.status = .running then
    .ok { b with status := .paused, paused_at := some now }
  else
    .error ⟨400, "Can only pause running batches"⟩

/-- `resume_batch` (`app/routers/batches.py` lines 392-423): legal only
from `paused`; sets status `running` and clears `paused_at`. -/
def resume_batch (b : Batch) : Except ApiError Batch :=
  if b.status = .paused then
    .ok { b with status := .running, paused_at := none }
  else
    .error ⟨400, "Can only resume paused batches"⟩

/-- The per-job update performed by `cancel_batch`
(`app/routers/batches.py` lines 450-458): jobs whose status is in
`("pending", "downloading", "uploading")` become `cancelled`; all other
jobs are not selected by the query and stay as they are. -/
def cancelJobUpdate (j : Job) : Job :=
  if j.status = .pending ∨ j.status = .downloading ∨ j.status = .uploading then
    { j with status := .cancelled }
  else j

/-- `cancel_batch` (`app/routers/batches.py` lines 426-462): refused with
the current status named in the detail when the batch is already
`completed`/`cancelled`; otherwise marks the batch `cancelled` with
`completed_at = now` and cancels its pending/downloading/uploading jobs. -/
def cancel_batch (b : Batch) (jobs : List Job) (now : Int) :
    Except ApiError (Batch × List Job) :=
  if b.status = .completed ∨ b.status = .cancelled then
    .error ⟨400, "Cannot cancel batch with status: " ++ batchStatusStr b.status⟩
  else
    .ok ({ b with status := .cancelled, completed_at := some now },
         jobs.map cancelJobUpdate)

/-- Whether `retry_batch` selects a job: `status IN ("failed", "cancelled")`
(`app/routers/batches.py` lines 482-486). -/
def isRetryEligible (j : Job) : Bool :=
  j.status == .failed || j.status == .cancelled

/-- The reset `retry_batch` applies to each selected job
(`app/routers/batches.py` lines 497-504): status `pending`,
`error_message`, `started_at`, `completed_at`, `current_step` cleared and
`progress` zeroed.  `error_code` and `retry_count` are not touched. -/
def retryJobReset (j : Job) : Job :=
  { j with
    status := .pending
    error_message := none
    started_at := none
    completed_at := none
    progress := 0
    current_step := none }

/-- The whole-list effect of `retry_batch` on the batch's jobs. -/
def retryBatchJobUpdate (j : Job) : Job :=
  if isRetryEligible j then retryJobReset j else j

/-- `retry_batch` (`app/routers/batches.py` lines 465-523): errors when
no job is `failed`/`cancelled`; otherwise resets the selected jobs, and
only when the batch status is itself `failed`/`cancelled`/`completed`
(lines 507-510) flips it to `running`, clears `completed_at` and lowers
`failed_episodes` by the number of jobs retried, floored at 0
(`max(0, failed_episodes - retry_count)`, which is `Nat` subtraction).
Returns the number of jobs retried as the third component. -/
def retry_batch (b : Batch) (jobs : List Job) :
    Except ApiError (Batch × List Job × Nat) :=
  let eligible := jobs.filter isRetryEligible
  if eligible.isEmpty then
    .error ⟨400, "No failed or cancelled jobs to retry"⟩
  else
    let n := eligible.length
    let b' :=
      if b.status = .failed ∨ b.status = .cancelled ∨ b.status = .completed then
        { b with
          status := .running
          completed_at := none
          failed_episodes := b.failed_episodes - n }
      else b
    .ok (b', jobs.map retryBatchJobUpdate, n)

/-- The batch/job state `retry_batch` leaves committed: the new values on
success, the untouched inputs when it raised. -/
def retryBatchCommitted (b : Batch) (jobs : List Job) : Batch × List Job :=
  match retry_batch b jobs with
  | .ok (b', js, _) => (b', js)
  | .error _ => (b, jobs)

/-- `retry_job` (`app/routers/jobs.py` lines 105-143): legal only from
`failed`; resets the job to `pending`, clears both error fields and both
timestamps, zeroes progress and increments `retry_count` (line 133, with
no ceiling check). -/
def retry_job (j : Job) : Except ApiError Job :=
  if j.status = .failed then
    .ok { j with
      status := .pending
      progress := 0
      current_step := none
      error_message := none
      error_code := none
      started_at := none
      completed_at := none
      retry_count := j.retry_count + 1 }
  else
    .error ⟨400, "Can only retry failed jobs"⟩

/-- `pause_job` (`app/routers/jobs.py` lines 167-198): legal from the
listed active statuses; sets status `paused` and nothing else. -/
def pause_job (j : Job) : Except ApiError Job :=
  if j.status = .processing ∨ j.status = .transcribing ∨ j.status = .downloading
      ∨ j.status = .embedding ∨ j.status = .chunking then
    .ok { j with status := .paused }
  else
    .error ⟨400, "Cannot pause job with status: "⟩

/-- `resume_job` (`app/routers/jobs.py` lines 201-232): legal only from
`paused`; sets status back to `pending`. -/
def resume_job (j : Job) : Except ApiError Job :=
  if j.status = .paused then
    .ok { j with status := .pending }
  else
    .error ⟨400, "Cannot resume job with status: "⟩

/-- `cancel_job` (`app/routers/jobs.py` lines 235-266): refused when the
job is already `done`/`cancelled`; otherwise sets status `cancelled`. -/
def cancel_job (j : Job) : Except ApiError Job :=
  if j.status = .done ∨ j.status = .cancelled then
    .error ⟨400, "Cannot cancel job with status: "⟩
  else
    .ok { j with status := .cancelled }

/-- The reset `retry_failed_jobs` applies to each selected job
(`app/workers/batch_processor.py` lines 189-197): like the manual reset
but it also clears `error_code` and increments `retry_count`. -/
def retryFailedJobReset (j : Job) : Job :=
  { j with
    status := .pending
    progress := 0
    current_step := none
    error_message := none
    error_code := none
    started_at := none
    completed_at := none
    retry_count := j.retry_count + 1 }

/-- The whole-list effect of `retry_failed_jobs` on a batch's jobs: it
selects `status == "failed" AND retry_count < 3`
(`app/workers/batch_processor.py` lines 179-184) and resets exactly the
selected ones. -/
def autoRetryJobUpdate (j : Job) : Job :=
  if j.status == .failed && j.retry_count < 3 then retryFailedJobReset j else j

/-- `retry_failed_jobs` (`app/workers/batch_processor.py` lines 175-219):
resets the selected jobs and unconditionally sets the batch `running`
with `failed_episodes = 0` (lines 212-214). -/
def retry_failed_jobs (b : Batch) (jobs : List Job) : Batch × List Job :=
  ({ b with status := .running, failed_episodes := 0 },
   jobs.map autoRetryJobUpdate)

/-- `progress_percent` (`app/models/batch.py` lines 57-61): `0` when
`total_episodes == 0`, else `completed_episodes / total_episodes * 100`. -/
def progress_percent (b : Batch) : ℚ :=
  if b.total_episodes = 0 then 0
  else ((b.completed_episodes : ℚ) / (b.total_episodes : ℚ)) * 100

/-! ## The counter-update loop of `process_batch`
(`app/workers/batch_processor.py` lines 107-146).

`process_batch` awaits the job coroutines with `asyncio.as_completed`.
For each completed attempt it runs (lines 114-146):

```
try:
    success = await coro
    if success: completed += 1
    else:       failed += 1
except Exception:
    failed += 1
async with BackgroundSessionLocal() as stats_db:
    if success:
        UPDATE batches SET completed_episodes = completed_episodes + 1 ...
    else:
        UPDATE batches SET failed_episodes = failed_episodes + 1 ...
```

The `UPDATE` statements are single-statement atomic increments; each is
modelled as a pure step on the stored counters.  Note that in the
`except` arm the local variable `success` is *not* assigned: at the
`if success:` line it still holds the value from the *previous* loop
iteration, and on the very first iteration it is unbound, so CPython
raises `UnboundLocalError` there and the whole background task dies
(no further completions are processed). -/

/-- How one job attempt can complete: `process_job` returns a bool, or
the awaited coroutine raises (e.g. a database error escaping
`pipeline.process_episode`'s own failure handler, or
`get_provider` raising `ValueError` for an unknown provider). -/
inductive AttemptOutcome
  | returned (success : Bool)
  | raised
  deriving DecidableEq, Repr

/-- The state of the completion loop: the local tallies `completed` and
`failed` (lines 111-112), the current value of the local variable
`success` (`none` = still unbound), the batch row's stored counters that
the atomic `UPDATE` statements target, and whether the loop has died
with `UnboundLocalError`. -/
structure LoopState where
  completed_local : Nat
  failed_local : Nat
  lastSuccess : Option Bool
  db_completed : Nat
  db_failed : Nat
  crashed : Bool
  deriving DecidableEq, Repr

/-- One iteration of the completion loop
(`app/workers/batch_processor.py` lines 114-146).  A `returned b`
outcome assigns `success := b`, bumps the matching local tally, and
executes the matching atomic `UPDATE`.  A `raised` outcome bumps the
local `failed` tally (line 123), then reaches `if success:` (line 128)
with the stale `success` value: unbound on the first iteration
(`UnboundLocalError`, loop dies), otherwise it increments whichever
stored counter the *previous* attempt's outcome selects. -/
def processCompletion (s : LoopState) (o : AttemptOutcome) : LoopState :=
  if s.crashed then s
  else
    match o with
    | .returned b =>
        let s' := { s with
          lastSuccess := some b
          completed_local := if b then s.completed_local + 1 else s.completed_local
          failed_local := if b then s.failed_local else s.failed_local + 1 }
        if b then { s' with db_completed := s'.db_completed + 1 }
        else { s' with db_failed := s'.db_failed + 1 }
    | .raised =>
        let s' := { s with failed_local := s.failed_local + 1 }
        match s.lastSuccess with
        | none => { s' with crashed := true }
        | some true => { s' with db_completed := s'.db_completed + 1 }
        | some false => { s' with db_failed := s'.db_failed + 1 }

/-- The completion loop over a completion-ordered list of attempt
outcomes. -/
def processCompletions (s : LoopState) (os : List AttemptOutcome) : LoopState :=
  os.foldl processCompletion s

/-- The initial loop state over a batch whose stored counters are
`c` / `f`: local tallies zero (lines 111-112), `success` unbound. -/
def initLoopState (c f : Nat) : LoopState :=
  { completed_local := 0
    failed_local := 0
    lastSuccess := none
    db_completed := c
    db_failed := f
    crashed := false }

/-! ## `check_batch_completion` (`app/tasks/transcription.py` lines 224-291)

The reconciliation task.  For a batch whose status is not `running` it
returns `{"status": "skipped"}` without touching anything (lines
239-240).  For a running batch it groups the batch's jobs by status
(lines 245-256), assigns the in-memory attributes
`batch.completed_episodes` / `batch.failed_episodes` (lines 259-260) and
then executes line 261:

```
batch.progress_percent = ((completed + failed) / total * 100 if total > 0 else 0)
```

`Batch.progress_percent` is a read-only `@property`
(`app/models/batch.py` lines 57-61, no setter), so this assignment
raises `AttributeError` on every invocation.  The `await db.commit()` at
line 281 is therefore never reached, the session context exits without
committing, and the in-memory counter assignments are discarded: the
stored batch row is unchanged and its status is never flipped to
`completed`. -/

/-- What a `check_batch_completion` invocation does to the stored batch
row: skipped (batch not running) or died with the `AttributeError`. -/
inductive ReconcileOutcome
  | skipped
  | raised (msg : String)
  deriving DecidableEq, Repr

/-- `check_batch_completion`, returning the batch row as it remains
stored after the invocation together with how the invocation ended. -/
def check_batch_completion (b : Batch) (_jobs : List JobStatus) :
    Batch × ReconcileOutcome :=
  if b.status ≠ .running then (b, .skipped)
  else (b, .raised "AttributeError: property Batch.progress_percent has no setter")

/-! ## The pipeline failure handler
(`app/workers/pipeline.py`, `TranscriptionPipeline.process_episode`,
lines 53-188). -/

/-- Episode statuses relevant to the pipeline (`app/models/episode.py`):
the pipeline sets `done` on success (line 142) and `failed` on failure
(line 183). -/
inductive EpisodeStatus
  | pending
  | queued
  | done
  | failed
  | skipped
  deriving DecidableEq, Repr

/-- The pipeline stages at which an exception can be raised, in the
order `process_episode` runs them (lines 79-161). -/
inductive PipelineStage
  | download
  | transcribe
  | label_speakers
  | save_utterances
  | chunk
  | embed_store
  | cleanup
  | backup
  | finalize
  deriving DecidableEq, Repr

/-- The job status in effect while a given stage runs: `_update_job` is
called on entry to the download (line 81), transcribe (line 88),
labeling (line 97), chunking (line 114) and embedding (line 130) stages;
the remaining stages run under the last status set. -/
def stageStatus : PipelineStage → JobStatus
  | .download => .downloading
  | .transcribe => .transcribing
  | .label_speakers => .labeling
  | .save_utterances => .labeling
  | .chunk => .chunking
  | .embed_store => .embedding
  | .cleanup => .embedding
  | .backup => .embedding
  | .finalize => .embedding

/-- The job progress in effect while a given stage runs (same
`_update_job` calls: 5, 20, 50, 65, 80). -/
def stageProgress : PipelineStage → Nat
  | .download => 5
  | .transcribe => 20
  | .label_speakers => 50
  | .save_utterances => 50
  | .chunk => 65
  | .embed_store => 80
  | .cleanup => 80
  | .backup => 80
  | .finalize => 80

/-- The `current_step` label in effect while a given stage runs (same
`_update_job` calls). -/
def stageStep : PipelineStage → String
  | .download => "Downloading audio"
  | .transcribe => "Transcribing"
  | .label_speakers => "Identifying speakers"
  | .save_utterances => "Identifying speakers"
  | .chunk => "Creating chunks"
  | .embed_store => "Generating embeddings"
  | .cleanup => "Generating embeddings"
  | .backup => "Generating embeddings"
  | .finalize => "Generating embeddings"

/-- Whether `audio_path` is bound in `process_episode`'s local scope when
a given stage raises: it is assigned by the download stage (line 84), so
it is bound exactly when the failing stage is a later one.  The failure
handler's cleanup (lines 170-175) runs only in that case. -/
def audioStaged : PipelineStage → Bool
  | .download => false
  | _ => true

/-- How `process_episode` ends, as seen by its caller: either it returns
a bool, or an exception propagates out of it. -/
inductive PipelineOutcome
  | returned (success : Bool)
  | raised (msg : String)
  deriving DecidableEq, Repr

/-- The state `process_episode` leaves behind. -/
structure PipelineResult where
  job : Job
  episodeStatus : EpisodeStatus
  cleanupAttempted : Bool
  outcome : PipelineOutcome
  deriving DecidableEq, Repr

/-- `TranscriptionPipeline.process_episode`
(`app/workers/pipeline.py` lines 53-188), driven by a description of the
run: `failure = none` means every stage succeeds, `failure = some (st, msg)`
means stage `st` raises an exception rendering as `msg`.

Success path (lines 79-164): the job ends `done` with progress 100, step
`"Complete"`, `cost_cents` from the transcript, `completed_at` stamped;
the episode ends `done`; the staged audio was cleaned up (line 136); the
method returns `True`.

Failure path (lines 166-188): the audio file is cleaned up when one was
staged (lines 170-175); the job is set `failed` with
`error_message = str(e)` — the *full* message, no truncation — and
`completed_at` stamped (lines 178-180); the episode is set `failed`
(line 183); the session is committed and the method **returns `False`**
(line 188) — the exception is swallowed, not re-raised. -/
def process_episode (j : Job) (cost : Option Int)
    (failure : Option (PipelineStage × String)) (now : Int) : PipelineResult :=
  match failure with
  | none =>
      { job := { j with
          status := .done
          progress := 100
          current_step := some "Complete"
          cost_cents := if cost = none then j.cost_cents else cost
          started_at := some (j.started_at.getD now)
          completed_at := some now }
        episodeStatus := .done
        cleanupAttempted := true
        outcome := .returned true }
  | some (st, msg) =>
      { job := { j with
          status := .failed
          progress := stageProgress st
          current_step := some (stageStep st)
          error_message := some msg
          started_at := some (j.started_at.getD now)
          completed_at := some now }
        episodeStatus := .failed
        cleanupAttempted := audioStaged st
        outcome := .returned false }

/-! ## The circuit breaker (`app/utils/retry.py` lines 14-110). -/

/-- `CircuitState` (`app/utils/retry.py` lines 14-19).  `open` is a Lean
keyword, hence the trailing underscore. -/
inductive CircuitState
  | closed
  | open_
  | half_open
  deriving DecidableEq, Repr

/-- The `CircuitBreaker` dataclass (`app/utils/retry.py` lines 22-47):
configuration plus mutable state.  `time.time()` instants are `Int`. -/
structure CircuitBreaker where
  failure_threshold : Nat
  recovery_timeout : Int
  half_open_max_calls : Nat
  state : CircuitState
  failure_count : Nat
  last_failure_time : Int
  half_open_calls : Nat
  deriving DecidableEq, Repr

/-- A breaker as constructed by `CircuitBreaker(name=...)` with the
dataclass defaults: `failure_threshold=5`, `recovery_timeout=60.0`,
`half_open_max_calls=3`, state `CLOSED`, zero counters. -/
def defaultBreaker : CircuitBreaker :=
  { failure_threshold := 5
    recovery_timeout := 60
    half_open_max_calls := 3
    state := .closed
    failure_count := 0
    last_failure_time := 0
    half_open_calls := 0 }

/-- The `state` property (`app/utils/retry.py` lines 49-57): reading it
at time `now` moves `OPEN` to `HALF_OPEN` (resetting the half-open call
counter) once `now - last_failure_time >= recovery_timeout`, and returns
the (possibly updated) state. -/
def checkState (cb : CircuitBreaker) (now : Int) :
    CircuitBreaker × CircuitState :=
  if cb.state = .open_ ∧ now - cb.last_failure_time ≥ cb.recovery_timeout then
    ({ cb with state := .half_open, half_open_calls := 0 }, .half_open)
  else (cb, cb.state)

/-- `record_success` (`app/utils/retry.py` lines 59-68): in `HALF_OPEN`,
counts the trial success and closes the circuit (resetting
`failure_count`) once the count reaches `half_open_max_calls`; in
`CLOSED`, resets the consecutive-failure count. -/
def record_success (cb : CircuitBreaker) : CircuitBreaker :=
  if cb.state = .half_open then
    let cb' := { cb with half_open_calls := cb.half_open_calls + 1 }
    if cb'.half_open_calls ≥ cb'.half_open_max_calls then
      { cb' with state := .closed, failure_count := 0 }
    else cb'
  else if cb.state = .closed then { cb with failure_count := 0 }
  else cb

/-- `record_failure` (`app/utils/retry.py` lines 70-83): increments the
failure count and stamps the failure time; a `HALF_OPEN` failure reopens
the circuit, and otherwise the circuit opens once the count reaches
`failure_threshold`. -/
def record_failure (cb : CircuitBreaker) (now : Int) : CircuitBreaker :=
  let cb' := { cb with
    failure_count := cb.failure_count + 1
    last_failure_time := now }
  if cb.state = .half_open then { cb' with state := .open_ }
  else if cb'.failure_count ≥ cb'.failure_threshold then
    { cb' with state := .open_ }
  else cb'

/-- What a wrapped call produced: rejected with `CircuitOpenError`
without invoking the wrapped function, or invoked with the given
success/failure outcome (a failure re-raises to the caller after
`record_failure`). -/
inductive CallResult
  | circuitOpen
  | invoked (success : Bool)
  deriving DecidableEq, Repr

/-- The decorator wrapper (`app/utils/retry.py` lines 85-104) applied at
time `now` to a call whose body would succeed iff `succeeds`: reads the
`state` property (possibly moving `OPEN` to `HALF_OPEN`), raises
`CircuitOpenError` when it reads `OPEN`, and otherwise invokes the
function and records the outcome. -/
def breakerCall (cb : CircuitBreaker) (now : Int) (succeeds : Bool) :
    CircuitBreaker × CallResult :=
  let (cb1, st) := checkState cb now
  if st = .open_ then (cb1, .circuitOpen)
  else if succeeds then (record_success cb1, .invoked true)
  else (record_failure cb1 now, .invoked false)

/-- A sequence of wrapped calls, all at time `now`, with the given
success outcomes; returns the final breaker state. -/
def breakerCalls (cb : CircuitBreaker) (now : Int) (outcomes : List Bool) :
    CircuitBreaker :=
  outcomes.foldl (fun c o => (breakerCall c now o).1) cb

/-! ## Concrete rows used as witnesses and counterexamples -/

/-- A freshly created job (`app/routers/batches.py` lines 307-314). -/
def job0 : Job :=
  { status := .pending
    progress := 0
    current_step := none
    error_message := none
    error_code := none
    retry_count := 0
    cost_cents := none
    started_at := none
    completed_at := none }

/-- A job mid-transcription. -/
def jobTranscribing : Job :=
  { job0 with
    status := .transcribing
    progress := 20
    current_step := some "Transcribing"
    started_at := some 1 }

/-- A failed job carrying an `error_code`. -/
def jobFailedWithCode : Job :=
  { job0 with
    status := .failed
    progress := 40
    current_step := some "Transcribing"
    error_message := some "boom"
    error_code := some "PROVIDER_ERROR"
    retry_count := 1
    started_at := some 1
    completed_at := some 2 }

/-- A failed job that has already been retried 3 times. -/
def jobFailedMaxRetries : Job :=
  { job0 with
    status := .failed
    error_message := some "boom"
    retry_count := 3 }

/-- A freshly created batch with 3 episodes. -/
def pendingBatch : Batch :=
  { status := .pending
    total_episodes := 3
    completed_episodes := 0
    failed_episodes := 0
    started_at := none
    paused_at := none
    completed_at := none }

/-- A batch that was started. -/
def runningBatch : Batch :=
  { pendingBatch with status := .running, started_at := some 0 }

/-- A batch started at time 5 and then paused at time 8. -/
def pausedStartedBatch : Batch :=
  { pendingBatch with
    status := .paused
    started_at := some 5
    paused_at := some 8
    completed_episodes := 1 }

/-- A paused batch with one completed and one failed episode. -/
def pausedBatchWithFailure : Batch :=
  { pendingBatch with
    status := .paused
    total_episodes := 2
    completed_episodes := 1
    failed_episodes := 1
    started_at := some 0
    paused_at := some 3 }

/-- A batch in status `failed` with one failed episode. -/
def failedBatch : Batch :=
  { pendingBatch with
    status := .failed
    total_episodes := 2
    completed_episodes := 1
    failed_episodes := 1
    started_at := some 0 }

/-- A completed batch. -/
def completedBatch : Batch :=
  { pendingBatch with
    status := .completed
    started_at := some 0
    completed_at := some 9
    completed_episodes := 3 }

/-- A batch with no episodes. -/
def zeroBatch : Batch :=
  { pendingBatch with total_episodes := 0 }

/-- An error message of 501 characters, longer than the 500-character
truncation bound `str(e)[:500]` used by `process_episode_task`
(`app/tasks/transcription.py` line 97). -/
def longMsg : String :=
  String.mk (List.replicate 501 'x')

/-- A breaker that opened after 5 failures, the last at time 100. -/
def openBreaker : CircuitBreaker :=
  { defaultBreaker with
    state := .open_
    failure_count := 5
    last_failure_time := 100 }

/-- A breaker in its half-open trial phase. -/
def halfOpenBreaker : CircuitBreaker :=
  { defaultBreaker with
    state := .half_open
    failure_count := 5
    last_failure_time := 100 }

/-! ## Theorems -/

/-- C1: for every batch, `pause` succeeds exactly when the current status
is `running`, `resume` succeeds exactly when it is `paused`, and `cancel`
fails exactly when the status is already `completed` or `cancelled`, with
the current status named in the error detail; whenever one of these
operations fails with such a conflict error, the stored batch row (and,
for cancel, the job rows) are left unchanged. -/
theorem batch_transition_conflict_spec (b : Batch) (jobs : List Job) (now : Int) :
    ((∃ b', pause_batch b now = .ok b') ↔ b.status = .running)
    ∧ ((∃ b', resume_batch b = .ok b') ↔ b.status = .paused)
    ∧ ((∃ e, cancel_batch b jobs now = .error e) ↔
        (b.status = .completed ∨ b.status = .cancelled))
    ∧ (b.status = .completed ∨ b.status = .cancelled →
        cancel_batch b jobs now =
          .error ⟨400, "Cannot cancel batch with status: " ++ batchStatusStr b.status⟩)
    ∧ (b.status ≠ .running → committedState b (pause_batch b now) = b)
    ∧ (b.status ≠ .paused → committedState b (resume_batch b) = b)
    ∧ (b.status = .completed ∨ b.status = .cancelled →
        committedState (b, jobs) (cancel_batch b jobs now) = (b, jobs)) := by
  refine ⟨?_, ?_, ?_, ?_, ?_, ?_, ?_⟩
  · constructor
    · rintro ⟨b', hb⟩
      by_cases hc : b.status = .running
      · exact hc
      · simp [pause_batch, hc] at hb
    · intro hc
      exact ⟨_, by rw [pause_batch, if_pos hc]⟩
  · constructor
    · rintro ⟨b', hb⟩
      by_cases hc : b.status = .paused
      · exact hc
      · simp [resume_batch, hc] at hb
    · intro hc
      exact ⟨_, by rw [resume_batch, if_pos hc]⟩
  · constructor
    · rintro ⟨e, he⟩
      by_cases hc : b.status = .completed ∨ b.status = .cancelled
      · exact hc
      · simp [cancel_batch, hc] at he
    · intro hc
      exact ⟨_, by rw [cancel_batch, if_pos hc]⟩
  · intro hc
    rw [cancel_batch, if_pos hc]
  · intro hc
    simp [committedState, pause_batch, hc]
  · intro hc
    simp [committedState, resume_batch, hc]
  · intro hc
    rw [cancel_batch, if_pos hc]
    rfl

/-- Witness for C1 at concrete rows: cancelling an already-completed
batch is refused with the status named, leaving batch and jobs as they
were; pausing a pending batch is refused and changes nothing. -/
theorem batch_transition_conflict_spec_witness :
    cancel_batch completedBatch [job0] 0 =
      .error ⟨400, "Cannot cancel batch with status: completed"⟩
    ∧ committedState (completedBatch, [job0]) (cancel_batch completedBatch [job0] 0)
        = (completedBatch, [job0])
    ∧ committedState pendingBatch (pause_batch pendingBatch 0) = pendingBatch := by
  have h := batch_transition_conflict_spec completedBatch [job0] 0
  have h2 := batch_transition_conflict_spec pendingBatch [] 0
  exact ⟨h.2.2.2.1 (Or.inl rfl), h.2.2.2.2.2.2 (Or.inl rfl),
    h2.2.2.2.2.1 (by decide)⟩

/-- C6: cancelling a batch that is not already `completed`/`cancelled`
marks the batch `cancelled` with `completed_at = now`, transitions every
job in status `pending`, `downloading` or `uploading` to `cancelled`,
and leaves every job in any other status unchanged. -/
theorem cancel_batch_spec (b : Batch) (jobs : List Job) (now : Int)
    (h1 : b.status ≠ .completed) (h2 : b.status ≠ .cancelled) :
    cancel_batch b jobs now =
      .ok ({ b with status := .cancelled, completed_at := some now },
           jobs.map cancelJobUpdate)
    ∧ (∀ j : Job,
        j.status = .pending ∨ j.status = .downloading ∨ j.status = .uploading →
        cancelJobUpdate j = { j with status := .cancelled })
    ∧ (∀ j : Job, j.status ≠ .pending → j.status ≠ .downloading →
        j.status ≠ .uploading → cancelJobUpdate j = j) := by
  refine ⟨by simp [cancel_batch, h1, h2], ?_, ?_⟩
  · intro j hj
    rw [cancelJobUpdate, if_pos hj]
  · intro j hp hd hu
    simp [cancelJobUpdate, hp, hd, hu]

/-- Witness for C6: cancelling a running batch with one pending and one
transcribing job cancels the pending job and leaves the transcribing one
untouched. -/
theorem cancel_batch_spec_witness :
    cancel_batch runningBatch [job0, jobTranscribing] 4 =
      .ok ({ runningBatch with status := .cancelled, completed_at := some 4 },
           [{ job0 with status := .cancelled }, jobTranscribing]) :=
  (cancel_batch_spec runningBatch [job0, jobTranscribing] 4
    (by decide) (by decide)).1

/-- C9 counterexample: `start_batch` assigns
`started_at = datetime.utcnow()` unconditionally
(`app/routers/batches.py` line 352).  Starting a batch that was started
at time 5 and then paused overwrites `started_at` with the new time 10,
refuting the claim that a subsequent start leaves the existing
`started_at` unchanged. -/
theorem start_batch_counterexample :
    pausedStartedBatch.started_at = some 5
    ∧ start_batch pausedStartedBatch 10 =
        .ok { pausedStartedBatch with
              status := .running
              started_at := some 10
              paused_at := none }
    ∧ (committedState pausedStartedBatch
        (start_batch pausedStartedBatch 10)).started_at = some 10 :=
  ⟨rfl, rfl, rfl⟩

/-- C9 amended: for every batch in status `pending` or `paused`, a
successful start sets the status to `running`, clears `paused_at`, and
overwrites `started_at` with the current time — on every successful
start, not only the first. -/
theorem start_batch_amended_spec (b : Batch) (now : Int)
    (h : b.status = .pending ∨ b.status = .paused) :
    start_batch b now =
      .ok { b with
            status := .running
            started_at := some now
            paused_at := none } := by
  rw [start_batch, if_pos h]

/-- Witness for the amended C9 at a concrete paused batch. -/
theorem start_batch_amended_spec_witness :
    start_batch pausedStartedBatch 10 =
      .ok { pausedStartedBatch with
            status := .running
            started_at := some 10
            paused_at := none } :=
  start_batch_amended_spec pausedStartedBatch 10 (Or.inr rfl)

/-- C10: `progress_percent` is total: it is `0` when
`total_episodes = 0` and `completed_episodes / total_episodes * 100`
otherwise, and it does not depend on `failed_episodes`, so failed
episodes never advance a batch's progress. -/
theorem progress_percent_spec (b : Batch) :
    (b.total_episodes = 0 → progress_percent b = 0)
    ∧ (b.total_episodes ≠ 0 →
        progress_percent b =
          (b.completed_episodes : ℚ) / (b.total_episodes : ℚ) * 100)
    ∧ (∀ n : Nat, progress_percent { b with failed_episodes := n }
        = progress_percent b) := by
  refine ⟨fun h => by simp [progress_percent, h],
    fun h => by simp [progress_percent, h], fun n => rfl⟩

/-- Witness for C10: a batch with no episodes reads 0%, and a batch with
1 of 3 episodes completed reads completed/total × 100 regardless of its
failed count. -/
theorem progress_percent_spec_witness :
    progress_percent zeroBatch = 0
    ∧ progress_percent pausedStartedBatch =
        (pausedStartedBatch.completed_episodes : ℚ) /
          (pausedStartedBatch.total_episodes : ℚ) * 100
    ∧ progress_percent { pausedStartedBatch with failed_episodes := 2 }
        = progress_percent pausedStartedBatch := by
  have h := progress_percent_spec pausedStartedBatch
  exact ⟨(progress_percent_spec zeroBatch).1 rfl, h.2.1 (by decide), h.2.2 2⟩

/-- C2, evaluated at the failing inputs: the completion loop of
`process_batch` does not increment exactly the matching counter for every
completed attempt.  With the batch's stored counters at 10/20, the
completion order [attempt returns success, attempt raises] tallies 1
success and 1 failure locally (lines 117-123) but executes the atomic
`completed_episodes` increment twice — the `except` arm reaches
`if success:` (line 128) with the previous attempt's `True` still bound —
ending at 12/20 instead of the claimed 11/21.  In the reverse order the
first completion raises while `success` is still unbound, so line 128
raises `UnboundLocalError`: the loop dies with the tallies at 1 failure
and neither stored counter incremented. -/
theorem process_batch_counter_update_bug :
    processCompletions (initLoopState 10 20) [.returned true, .raised]
      = { completed_local := 1
          failed_local := 1
          lastSuccess := some true
          db_completed := 12
          db_failed := 20
          crashed := false }
    ∧ processCompletions (initLoopState 10 20) [.raised, .returned true]
      = { completed_local := 0
          failed_local := 1
          lastSuccess := none
          db_completed := 10
          db_failed := 20
          crashed := true } := by
  exact ⟨rfl, rfl⟩

/-- C3, evaluated at the failing input: `check_batch_completion` on a
running batch always dies with `AttributeError` at the
`batch.progress_percent = ...` assignment (`app/tasks/transcription.py`
line 261; `Batch.progress_percent` is a read-only property,
`app/models/batch.py` lines 57-61), before the commit at line 281.  Even
when every job of the batch is in a terminal status, the stored batch row
keeps its old counters, its status stays `running` and `completed_at` is
never stamped — the reconciliation the claim describes never happens. -/
theorem check_batch_completion_crashes :
    check_batch_completion runningBatch [.done, .done, .failed]
      = (runningBatch,
         .raised "AttributeError: property Batch.progress_percent has no setter")
    ∧ runningBatch.status = .running
    ∧ runningBatch.completed_episodes = 0
    ∧ runningBatch.completed_at = none := by
  exact ⟨rfl, rfl, rfl, rfl⟩

/-- C5 counterexample: a pipeline run whose transcription stage raises
with a 501-character message ends with `process_episode` *returning*
`False` — the exception is not re-raised to the task layer — and with the
job's `error_message` holding the full 501-character string, not a
truncated one (`app/workers/pipeline.py` lines 166-188 store `str(e)`
unsliced and end in `return False`). -/
theorem process_episode_counterexample :
    (process_episode jobTranscribing none (some (.transcribe, longMsg)) 9).outcome
      = .returned false
    ∧ (process_episode jobTranscribing none (some (.transcribe, longMsg)) 9).job.error_message
      = some longMsg
    ∧ 500 < longMsg.length := by
  refine ⟨rfl, rfl, ?_⟩
  have h : longMsg.length = 501 := by
    simp only [longMsg, String.length, List.length_replicate]
  omega

/-- C5 amended: an unhandled exception at any stage leaves the job
`failed` with the full, untruncated error message and a stamped
`completed_at`, marks the episode `failed`, attempts audio cleanup
exactly when an audio file had been staged (the failing stage is past
download), and makes `process_episode` return `False` to its caller
instead of re-raising the exception. -/
theorem process_episode_failure_spec (j : Job) (cost : Option Int)
    (st : PipelineStage) (msg : String) (now : Int) :
    (process_episode j cost (some (st, msg)) now).job.status = .failed
    ∧ (process_episode j cost (some (st, msg)) now).job.error_message = some msg
    ∧ (process_episode j cost (some (st, msg)) now).job.completed_at = some now
    ∧ (process_episode j cost (some (st, msg)) now).episodeStatus = .failed
    ∧ (st ≠ .download →
        (process_episode j cost (some (st, msg)) now).cleanupAttempted = true)
    ∧ (st = .download →
        (process_episode j cost (some (st, msg)) now).cleanupAttempted = false)
    ∧ (process_episode j cost (some (st, msg)) now).outcome = .returned false := by
  refine ⟨rfl, rfl, rfl, rfl, ?_, ?_, rfl⟩
  · intro h
    cases st <;> simp [process_episode, audioStaged] at h ⊢
  · intro h
    subst h
    rfl

/-- Witness for the amended C5: a failure during transcription at a
concrete job. -/
theorem process_episode_failure_spec_witness :
    (process_episode jobTranscribing none (some (.transcribe, "boom")) 9).job.status
      = .failed
    ∧ (process_episode jobTranscribing none (some (.transcribe, "boom")) 9).cleanupAttempted
      = true
    ∧ (process_episode job0 none (some (.download, "404")) 9).cleanupAttempted
      = false := by
  have h := process_episode_failure_spec jobTranscribing none .transcribe "boom" 9
  have h2 := process_episode_failure_spec job0 none .download "404" 9
  exact ⟨h.1, h.2.2.2.2.1 (by decide), h2.2.2.2.2.2.1 rfl⟩

/-- C7 counterexample: retrying a *paused* batch that has one failed job
carrying an `error_code` re-queues the job but leaves its `error_code`
set (`retry_batch` never clears it, `app/routers/batches.py` lines
497-504), leaves the batch status `paused` instead of flipping it to
`running`, and leaves `failed_episodes` at 1 instead of decrementing it
(the status flip and decrement run only for `failed`/`cancelled`/
`completed` batches, lines 507-510). -/
theorem retry_batch_counterexample :
    retry_batch pausedBatchWithFailure [jobFailedWithCode]
      = .ok (pausedBatchWithFailure, [retryJobReset jobFailedWithCode], 1)
    ∧ (retryJobReset jobFailedWithCode).status = .pending
    ∧ (retryJobReset jobFailedWithCode).error_code = some "PROVIDER_ERROR"
    ∧ pausedBatchWithFailure.status = .paused
    ∧ pausedBatchWithFailure.failed_episodes = 1 := by
  exact ⟨rfl, rfl, rfl, rfl, rfl⟩

/-- C7 amended: batch-level retry re-queues every `failed`/`cancelled`
job to `pending`, clearing `error_message`, both timestamps, `progress`
and `current_step` but leaving `error_code` (and `retry_count`)
untouched; only when the batch itself is `failed`, `cancelled` or
`completed` does it flip the batch to `running`, clear `completed_at`
and decrement `failed_episodes` by the number of jobs retried (floored
at 0); with no eligible job it returns an error and changes nothing. -/
theorem retry_batch_amended_spec (b : Batch) (jobs : List Job) :
    (jobs.filter isRetryEligible = [] →
        retry_batch b jobs = .error ⟨400, "No failed or cancelled jobs to retry"⟩
        ∧ retryBatchCommitted b jobs = (b, jobs))
    ∧ (jobs.filter isRetryEligible ≠ [] →
        (retryBatchCommitted b jobs).2 = jobs.map retryBatchJobUpdate
        ∧ (b.status = .failed ∨ b.status = .cancelled ∨ b.status = .completed →
            (retryBatchCommitted b jobs).1.status = .running
            ∧ (retryBatchCommitted b jobs).1.completed_at = none
            ∧ (retryBatchCommitted b jobs).1.failed_episodes
                = b.failed_episodes - (jobs.filter isRetryEligible).length)
        ∧ (b.status ≠ .failed → b.status ≠ .cancelled → b.status ≠ .completed →
            (retryBatchCommitted b jobs).1 = b))
    ∧ (∀ j : Job, isRetryEligible j = true → retryBatchJobUpdate j = retryJobReset j)
    ∧ (∀ j : Job, isRetryEligible j = false → retryBatchJobUpdate j = j)
    ∧ (∀ j : Job, (retryJobReset j).status = .pending
        ∧ (retryJobReset j).error_message = none
        ∧ (retryJobReset j).started_at = none
        ∧ (retryJobReset j).completed_at = none
        ∧ (retryJobReset j).progress = 0
        ∧ (retryJobReset j).current_step = none
        ∧ (retryJobReset j).error_code = j.error_code
        ∧ (retryJobReset j).retry_count = j.retry_count) := by
  refine ⟨?_, ?_, ?_, ?_, ?_⟩
  · intro hfe
    have hok : retry_batch b jobs = .error ⟨400, "No failed or cancelled jobs to retry"⟩ := by
      rw [retry_batch]
      simp [hfe]
    exact ⟨hok, by simp [retryBatchCommitted, hok]⟩
  · intro hfe
    have hne : (jobs.filter isRetryEligible).isEmpty = false := by
      cases hl : jobs.filter isRetryEligible with
      | nil => exact absurd hl hfe
      | cons x xs => rfl
    by_cases hs : b.status = .failed ∨ b.status = .cancelled ∨ b.status = .completed
    · have hok : retry_batch b jobs = .ok
          ({ b with
             status := .running
             completed_at := none
             failed_episodes := b.failed_episodes - (jobs.filter isRetryEligible).length },
           jobs.map retryBatchJobUpdate, (jobs.filter isRetryEligible).length) := by
        rw [retry_batch]
        simp [hne, hs]
      refine ⟨by simp [retryBatchCommitted, hok], fun _ => ?_, fun h1 h2 h3 => ?_⟩
      · exact ⟨by simp [retryBatchCommitted, hok], by simp [retryBatchCommitted, hok],
          by simp [retryBatchCommitted, hok]⟩
      · exact absurd hs (by simp [h1, h2, h3])
    · have hok : retry_batch b jobs = .ok
          (b, jobs.map retryBatchJobUpdate, (jobs.filter isRetryEligible).length) := by
        rw [retry_batch]
        simp [hne, hs]
      refine ⟨by simp [retryBatchCommitted, hok], fun hs' => absurd hs' hs,
        fun _ _ _ => by simp [retryBatchCommitted, hok]⟩
  · intro j hj
    rw [retryBatchJobUpdate, if_pos hj]
  · intro j hj
    rw [retryBatchJobUpdate, if_neg (by simp [hj])]
  · intro j
    exact ⟨rfl, rfl, rfl, rfl, rfl, rfl, rfl, rfl⟩

/-- Witness for the amended C7: a `failed` batch with one failed job is
flipped to `running` with its failed count decremented to 0, and a batch
with no eligible jobs is refused. -/
theorem retry_batch_amended_spec_witness :
    (retryBatchCommitted failedBatch [jobFailedWithCode]).1.status = .running
    ∧ (retryBatchCommitted failedBatch [jobFailedWithCode]).1.failed_episodes = 0
    ∧ (retryBatchCommitted pausedBatchWithFailure [jobFailedWithCode]).1
        = pausedBatchWithFailure
    ∧ retry_batch pendingBatch [job0] =
        .error ⟨400, "No failed or cancelled jobs to retry"⟩ := by
  have h := retry_batch_amended_spec failedBatch [jobFailedWithCode]
  have h2 := retry_batch_amended_spec pausedBatchWithFailure [jobFailedWithCode]
  have h3 := retry_batch_amended_spec pendingBatch [job0]
  exact ⟨((h.2.1 (by decide)).2.1 (Or.inl rfl)).1,
    ((h.2.1 (by decide)).2.1 (Or.inl rfl)).2.2,
    (h2.2.1 (by decide)).2.2 (by decide) (by decide) (by decide),
    (h3.1 (by decide)).1⟩

/-- C8: a job's `retry_count` never decreases under any modelled
operation; the automatic retry (`retry_failed_jobs`,
`app/workers/batch_processor.py` lines 175-197) selects only failed jobs
with `retry_count < 3` and increments the count of each job it retries,
so a job with `retry_count = 3` is left untouched by it; manual
batch-level retry (`retry_batch`) re-queues a failed job to `pending`
regardless of its `retry_count` and without changing it. -/
theorem retry_count_monotone_spec :
    (∀ j : Job, j.retry_count ≤ (committedState j (retry_job j)).retry_count)
    ∧ (∀ j : Job, (retryBatchJobUpdate j).retry_count = j.retry_count)
    ∧ (∀ j : Job, j.retry_count ≤ (autoRetryJobUpdate j).retry_count)
    ∧ (∀ j : Job, (cancelJobUpdate j).retry_count = j.retry_count)
    ∧ (∀ j : Job, (committedState j (pause_job j)).retry_count = j.retry_count)
    ∧ (∀ j : Job, (committedState j (resume_job j)).retry_count = j.retry_count)
    ∧ (∀ j : Job, (committedState j (cancel_job j)).retry_count = j.retry_count)
    ∧ (∀ (j : Job) (cost : Option Int) (failure : Option (PipelineStage × String))
        (now : Int),
        (process_episode j cost failure now).job.retry_count = j.retry_count)
    ∧ (∀ j : Job, 3 ≤ j.retry_count → autoRetryJobUpdate j = j)
    ∧ (∀ j : Job, j.status = .failed → j.retry_count < 3 →
        autoRetryJobUpdate j = retryFailedJobReset j
        ∧ (retryFailedJobReset j).retry_count = j.retry_count + 1
        ∧ (retryFailedJobReset j).status = .pending)
    ∧ (∀ j : Job, j.status = .failed →
        (retryBatchJobUpdate j).status = .pending
        ∧ (retryBatchJobUpdate j).retry_count = j.retry_count) := by
  refine ⟨?_, ?_, ?_, ?_, ?_, ?_, ?_, ?_, ?_, ?_, ?_⟩
  · intro j
    by_cases h : j.status = .failed <;>
      simp [retry_job, committedState, h]
  · intro j
    by_cases h : isRetryEligible j <;>
      simp [retryBatchJobUpdate, retryJobReset, h]
  · intro j
    by_cases h : (j.status == JobStatus.failed && j.retry_count < 3) = true <;>
      simp [autoRetryJobUpdate, retryFailedJobReset, h]
  · intro j
    by_cases h : j.status = .pending ∨ j.status = .downloading ∨ j.status = .uploading <;>
      simp [cancelJobUpdate, h]
  · intro j
    by_cases h : j.status = .processing ∨ j.status = .transcribing
        ∨ j.status = .downloading ∨ j.status = .embedding ∨ j.status = .chunking <;>
      simp [pause_job, committedState, h]
  · intro j
    by_cases h : j.status = .paused <;>
      simp [resume_job, committedState, h]
  · intro j
    by_cases h : j.status = .done ∨ j.status = .cancelled <;>
      simp [cancel_job, committedState, h]
  · intro j cost failure now
    cases failure with
    | none => rfl
    | some p => cases p; rfl
  · intro j h
    have hlt : ¬ j.retry_count < 3 := by omega
    simp [autoRetryJobUpdate, hlt]
  · intro j hst hlt
    refine ⟨?_, rfl, rfl⟩
    rw [autoRetryJobUpdate, if_pos (by simp [hst, hlt])]
  · intro j hst
    have he : isRetryEligible j = true := by simp [isRetryEligible, hst]
    rw [retryBatchJobUpdate, if_pos he]
    exact ⟨rfl, rfl⟩

/-- Witness for C8 at concrete jobs: a failed job already retried 3
times is skipped by the automatic retry but still re-queued (count
unchanged) by the manual batch-level retry; a failed job with
`retry_count = 1` is re-queued by the automatic retry with its count
bumped to 2. -/
theorem retry_count_monotone_spec_witness :
    autoRetryJobUpdate jobFailedMaxRetries = jobFailedMaxRetries
    ∧ (retryBatchJobUpdate jobFailedMaxRetries).status = .pending
    ∧ (retryBatchJobUpdate jobFailedMaxRetries).retry_count = 3
    ∧ autoRetryJobUpdate jobFailedWithCode = retryFailedJobReset jobFailedWithCode
    ∧ (retryFailedJobReset jobFailedWithCode).retry_count = 2 := by
  have h := retry_count_monotone_spec
  exact ⟨h.2.2.2.2.2.2.2.2.1 jobFailedMaxRetries (by decide),
    (h.2.2.2.2.2.2.2.2.2.2 jobFailedMaxRetries rfl).1,
    (h.2.2.2.2.2.2.2.2.2.2 jobFailedMaxRetries rfl).2,
    (h.2.2.2.2.2.2.2.2.2.1 jobFailedWithCode rfl (by decide)).1,
    (h.2.2.2.2.2.2.2.2.2.1 jobFailedWithCode rfl (by decide)).2.1⟩

/-- Helper: from `HALF_OPEN` with `k ≥ 1` trial successes remaining to
reach `half_open_max_calls`, a run of `k` successful calls closes the
circuit and resets the failure count. -/
theorem half_open_success_run (now : Int) (k : Nat) :
    ∀ cb : CircuitBreaker, cb.state = .half_open → 1 ≤ k →
    cb.half_open_calls + k = cb.half_open_max_calls →
    (breakerCalls cb now (List.replicate k true)).state = .closed
    ∧ (breakerCalls cb now (List.replicate k true)).failure_count = 0 := by
  induction k with
  | zero =>
    intro cb _ h1 _
    omega
  | succ k ih =>
    intro cb hst h1 hsum
    have hstep : breakerCalls cb now (List.replicate (k + 1) true)
        = breakerCalls (record_success cb) now (List.replicate k true) := by
      simp [breakerCalls, List.replicate_succ, breakerCall, checkState, hst]
    rcases Nat.eq_zero_or_pos k with hk | hk
    · subst hk
      have hge : cb.half_open_max_calls ≤ cb.half_open_calls + 1 := by omega
      rw [hstep]
      simp [breakerCalls, record_success, hst, hge]
    · have hlt : ¬ cb.half_open_max_calls ≤ cb.half_open_calls + 1 := by omega
      have hrs : record_success cb
          = { cb with half_open_calls := cb.half_open_calls + 1 } := by
        simp [record_success, hst, hlt]
      rw [hstep, hrs]
      exact ih _ (by simp [hst]) hk (by simp; omega)

/-- C4: the circuit breaker is the claimed three-state machine.  In
`closed`, a wrapped success resets the consecutive-failure count and a
wrapped failure increments it, opening the circuit once the count
reaches `failure_threshold`; while `open` and strictly before
`recovery_timeout` has elapsed since the last failure, every wrapped
call is rejected with `CircuitOpenError` without invoking the function
and without changing the breaker; once `recovery_timeout` has elapsed
the call goes through in `half_open`, where any single failure reopens
the circuit and a run of `half_open_max_calls` trial successes closes it
with the failure count reset to 0.  The dataclass defaults are threshold
5, timeout 60 s and 3 trial calls. -/
theorem circuit_breaker_state_machine :
    (∀ (cb : CircuitBreaker) (now : Int), cb.state = .closed →
        breakerCall cb now true = ({ cb with failure_count := 0 }, .invoked true))
    ∧ (∀ (cb : CircuitBreaker) (now : Int), cb.state = .closed →
        (breakerCall cb now false).1.failure_count = cb.failure_count + 1
        ∧ (breakerCall cb now false).2 = .invoked false
        ∧ (cb.failure_threshold ≤ cb.failure_count + 1 →
            (breakerCall cb now false).1.state = .open_)
        ∧ (cb.failure_count + 1 < cb.failure_threshold →
            (breakerCall cb now false).1.state = .closed))
    ∧ (∀ (cb : CircuitBreaker) (now : Int) (s : Bool), cb.state = .open_ →
        now - cb.last_failure_time < cb.recovery_timeout →
        breakerCall cb now s = (cb, .circuitOpen))
    ∧ (∀ (cb : CircuitBreaker) (now : Int) (s : Bool), cb.state = .open_ →
        cb.recovery_timeout ≤ now - cb.last_failure_time →
        (breakerCall cb now s).2 = .invoked s)
    ∧ (∀ (cb : CircuitBreaker) (now : Int), cb.state = .half_open →
        (breakerCall cb now false).1.state = .open_
        ∧ (breakerCall cb now false).2 = .invoked false)
    ∧ (∀ (cb : CircuitBreaker) (now : Int) (k : Nat), cb.state = .half_open →
        1 ≤ k → cb.half_open_calls + k = cb.half_open_max_calls →
        (breakerCalls cb now (List.replicate k true)).state = .closed
        ∧ (breakerCalls cb now (List.replicate k true)).failure_count = 0)
    ∧ (defaultBreaker.failure_threshold = 5 ∧ defaultBreaker.recovery_timeout = 60
        ∧ defaultBreaker.half_open_max_calls = 3
        ∧ defaultBreaker.state = .closed) := by
  refine ⟨?_, ?_, ?_, ?_, ?_, ?_, ⟨rfl, rfl, rfl, rfl⟩⟩
  · intro cb now hst
    simp [breakerCall, checkState, record_success, hst]
  · intro cb now hst
    refine ⟨?_, ?_, ?_, ?_⟩
    · simp [breakerCall, checkState, record_failure, hst]
      split <;> rfl
    · simp [breakerCall, checkState, hst]
    · intro h
      simp [breakerCall, checkState, record_failure, hst, h]
    · intro h
      have h' : ¬ cb.failure_threshold ≤ cb.failure_count + 1 := by omega
      simp [breakerCall, checkState, record_failure, hst, h']
  · intro cb now s hst hlt
    have h' : ¬ cb.recovery_timeout ≤ now - cb.last_failure_time := by omega
    simp [breakerCall, checkState, hst, h']
  · intro cb now s hst hge
    cases s <;> simp [breakerCall, checkState, hst, hge]
  · intro cb now hst
    constructor <;> simp [breakerCall, checkState, record_failure, hst]
  · intro cb now k hst h1 hsum
    exact half_open_success_run now k cb hst h1 hsum

/-- Witness for C4 at concrete breakers: with the last failure at time
100 and the default 60 s window, a call at time 130 is rejected without
invocation and without state change; a call at time 170 goes through;
three consecutive trial successes close a half-open breaker and reset
its failure count. -/
theorem circuit_breaker_state_machine_witness :
    breakerCall openBreaker 130 true = (openBreaker, .circuitOpen)
    ∧ (breakerCall openBreaker 170 true).2 = .invoked true
    ∧ (breakerCalls halfOpenBreaker 200 (List.replicate 3 true)).state = .closed
    ∧ (breakerCalls halfOpenBreaker 200 (List.replicate 3 true)).failure_count = 0
    ∧ (breakerCall halfOpenBreaker 200 false).1.state = .open_
    ∧ breakerCall defaultBreaker 0 true =
        ({ defaultBreaker with failure_count := 0 }, .invoked true) := by
  have h := circuit_breaker_state_machine
  refine ⟨h.2.2.1 openBreaker 130 true rfl (by decide),
    h.2.2.2.1 openBreaker 170 true rfl (by decide),
    (h.2.2.2.2.2.1 halfOpenBreaker 200 3 rfl (by decide) (by decide)).1,
    (h.2.2.2.2.2.1 halfOpenBreaker 200 3 rfl (by decide) (by decide)).2,
    (h.2.2.2.2.1 halfOpenBreaker 200 rfl).1,
    h.1 defaultBreaker 0 rfl⟩

end PodcastSearch
